import Mathlib

/-!
Verification of the Morpheus user-space runtime (Python sources under
`morpheus-py/`): shared constants and SCB layout
(`morpheus_common/_morpheus_shared.py`), the asyncio integration helpers
(`python/morpheus/asyncio.py`, `python/morpheus_asyncio.py`) and the
package-level `async_checkpoint` (`python/morpheus/__init__.py`).
-/

namespace Morpheus

/-! ## Configuration constants (`morpheus_common/_morpheus_shared.py`) -/

def MAX_WORKERS : Nat := 1024

def DEFAULT_SLICE_NS : Nat := 5 * 1000000

def GRACE_PERIOD_NS : Nat := 100 * 1000000

def RINGBUF_SIZE : Nat := 256 * 1024

/-! ## ctypes layout model for `MorpheusScb`

`MorpheusScb` is a `ctypes.Structure` with `_pack_ = 8`.  A ctype is
described by its size and natural alignment; under `_pack_ = n` a field is
placed at the current size rounded up to `min(alignment, n)`, and the total
structure size is rounded up to the largest effective field alignment. -/

structure CType where
  size : Nat
  align : Nat
deriving Repr, DecidableEq

def c_uint32 : CType := ⟨4, 4⟩

def c_uint64 : CType := ⟨8, 8⟩

/-- `ty * n` in ctypes: an array has the element's alignment. -/
def arr (t : CType) (n : Nat) : CType := ⟨t.size * n, t.align⟩

def roundUp (x a : Nat) : Nat := ((x + a - 1) / a) * a

/-- Layout state while folding over the `_fields_` list: computed offsets,
current size, and maximal effective alignment seen so far. -/
structure Layout where
  offsets : List (String × Nat)
  curSize : Nat
  maxAlign : Nat

def placeField (pack : Nat) (l : Layout) (f : String × CType) : Layout :=
  let a := min f.2.align pack
  let off := roundUp l.curSize a
  { offsets := l.offsets ++ [(f.1, off)]
    curSize := off + f.2.size
    maxAlign := max l.maxAlign a }

def layoutOf (pack : Nat) (fields : List (String × CType)) : Layout :=
  fields.foldl (placeField pack) ⟨[], 0, 1⟩

/-- The `_fields_` list of `MorpheusScb`. -/
def scbFields : List (String × CType) :=
  [ ("preempt_seq", c_uint64)
  , ("budget_remaining_ns", c_uint64)
  , ("kernel_pressure_level", c_uint32)
  , ("worker_state", c_uint32)
  , ("_reserved0", arr c_uint64 5)
  , ("is_in_critical_section", c_uint32)
  , ("escapable", c_uint32)
  , ("last_ack_seq", c_uint64)
  , ("runtime_priority", c_uint32)
  , ("last_yield_reason", c_uint32)
  , ("_reserved1", arr c_uint64 1)
  , ("escalation_policy", c_uint32)
  , ("_pad", c_uint32)
  , ("_reserved2", arr c_uint64 3)
  ]

def scbLayout : Layout := layoutOf 8 scbFields

/-- `getattr(MorpheusScb, name).offset` -/
def scbOffset (name : String) : Option Nat :=
  (scbLayout.offsets.find? (fun p => p.1 == name)).map Prod.snd

/-- `ctypes.sizeof(MorpheusScb)` -/
def scbSizeof : Nat := roundUp scbLayout.curSize scbLayout.maxAlign

/-- The expected-offset table inside `verify_offsets`. -/
def expectedOffsets : List (String × Nat) :=
  [ ("preempt_seq", 0)
  , ("budget_remaining_ns", 8)
  , ("kernel_pressure_level", 16)
  , ("worker_state", 20)
  , ("is_in_critical_section", 64)
  , ("escapable", 68)
  , ("last_ack_seq", 72)
  , ("runtime_priority", 80)
  , ("last_yield_reason", 84)
  , ("escalation_policy", 96)
  ]

/-- `verify_offsets()`: checks every expected offset and the total size,
raising (`false` here) on any mismatch, and returns `True` otherwise. -/
def verify_offsets : Bool :=
  (expectedOffsets.all (fun p => scbOffset p.1 == some p.2)) &&
  (scbSizeof == 128)

/-! ## AdaptiveCheckpointer (`python/morpheus/asyncio.py`, lines 76-93;
identical in `python/morpheus_asyncio.py`, lines 129-177)

Python integers are unbounded, so fields are `Int`; Python `//` is floor
division (`Int.fdiv`).  `pressure_level()` is passed in as the `Option Int`
the backend returned; `x or 0` maps both `None` and `0` to `0`. -/

structure AdaptiveCheckpointer where
  min_interval : Int
  max_interval : Int
  last_check : Int
deriving Repr, DecidableEq

def AdaptiveCheckpointer.mk_default : AdaptiveCheckpointer :=
  ⟨100, 10000, 0⟩

/-- `pressure_level() or 0`: `None` and `0` are the falsy values of the
possible results, and both map to `0`, so this is `getD 0`. -/
def orZero (p : Option Int) : Int := p.getD 0

/-- The interval computation inside `should_check`:
`max_interval - (max_interval - min_interval) * pressure // 100`. -/
def AdaptiveCheckpointer.intervalFor (c : AdaptiveCheckpointer)
    (pressure : Int) : Int :=
  c.max_interval - ((c.max_interval - c.min_interval) * pressure).fdiv 100

/-- `AdaptiveCheckpointer.should_check(iteration)`; `plevel` is the value
returned by `_morpheus.pressure_level()`. -/
def AdaptiveCheckpointer.should_check (c : AdaptiveCheckpointer)
    (plevel : Option Int) (iteration : Int) : Bool × AdaptiveCheckpointer :=
  let pressure := orZero plevel
  let interval := c.intervalFor pressure
  if iteration - c.last_check ≥ interval then
    (true, { c with last_check := iteration })
  else
    (false, c)

/-! ## `is_kernel_pressured` (`python/morpheus/asyncio.py`, lines 65-68) -/

/-- `level is not None and level > threshold`, default threshold 50. -/
def is_kernel_pressured (plevel : Option Int) (threshold : Int := 50) : Bool :=
  match plevel with
  | none => false
  | some level => level > threshold

/-! ## Event-trace model of the asyncio helpers

The wrappers in `python/morpheus/asyncio.py` call an underlying `_morpheus`
module — the native extension, or `_MorpheusStub` when the import fails.
We model the backend as a record of state transformers over an abstract
state `σ`, and the wrappers as functions that additionally emit the trace
of calls and suspension points they perform, in order. -/

inductive Ev
  | callCheckpoint
  | callYieldRequested
  | callAck
  | callEnter
  | callExit
  | suspend
deriving Repr, DecidableEq

/-- The surface of the `_morpheus` module used by the wrappers. -/
structure MorpheusApi (σ : Type) where
  checkpoint : σ → Bool × σ
  yield_requested : σ → Bool × σ
  acknowledge_yield : σ → Bool × σ
  enter_critical_section : σ → σ
  exit_critical_section : σ → σ
  is_in_critical_section : σ → Bool × σ
  pressure_level : σ → Option Int × σ
  is_defensive_mode : σ → Bool × σ

/-- `_MorpheusStub` (`python/morpheus/asyncio.py`, lines 26-34): every
operation returns a neutral value and leaves the state untouched. -/
def stubApi : MorpheusApi Unit where
  checkpoint := fun s => (false, s)
  yield_requested := fun s => (false, s)
  acknowledge_yield := fun s => (false, s)
  enter_critical_section := fun s => s
  exit_critical_section := fun s => s
  is_in_critical_section := fun s => (false, s)
  pressure_level := fun s => (none, s)
  is_defensive_mode := fun s => (false, s)

/-- `morpheus_checkpoint()` (`python/morpheus/asyncio.py`, lines 40-46):
`if _morpheus.checkpoint(): _morpheus.acknowledge_yield();
await asyncio.sleep(0); return True` else `return False`. -/
def morpheus_checkpoint {σ} (api : MorpheusApi σ) (s : σ) :
    Bool × σ × List Ev :=
  let (b, s1) := api.checkpoint s
  if b then
    let (_, s2) := api.acknowledge_yield s1
    (true, s2, [Ev.callCheckpoint, Ev.callAck, Ev.suspend])
  else
    (false, s1, [Ev.callCheckpoint])

/-- `force_yield()` (`python/morpheus/asyncio.py`, lines 49-52):
`_morpheus.acknowledge_yield(); await asyncio.sleep(0)`. -/
def force_yield {σ} (api : MorpheusApi σ) (s : σ) : σ × List Ev :=
  let (_, s1) := api.acknowledge_yield s
  (s1, [Ev.callAck, Ev.suspend])

/-- How the body of a `morpheus_critical` scope finishes: a normal return,
an error raised inside the scope, or a cancellation hitting one of the
body's suspension points. -/
inductive Outcome
  | normal
  | error
  | cancelled
deriving Repr, DecidableEq

/-- `morpheus_critical()` (`python/morpheus/asyncio.py`, lines 55-62):
`enter_critical_section()`, then the body under `try`, and
`exit_critical_section()` in the `finally` clause — so the exit call runs
whatever the body's outcome, and that outcome is then propagated. -/
def morpheus_critical {σ} (api : MorpheusApi σ)
    (body : σ → Outcome × σ × List Ev) (s : σ) : Outcome × σ × List Ev :=
  let s1 := api.enter_critical_section s
  let (o, s2, tr) := body s1
  let s3 := api.exit_critical_section s2
  (o, s3, Ev.callEnter :: (tr ++ [Ev.callExit]))

/-- `k` nested `morpheus_critical` scopes around a body that does
nothing. -/
def nestCritical {σ} (api : MorpheusApi σ) : Nat → σ → Outcome × σ × List Ev
  | 0, s => (Outcome.normal, s, [])
  | k + 1, s => morpheus_critical api (nestCritical api k) s

/-! ## Spec-modelled native module

The native `_morpheus` extension is not part of the Python sources; only
its callers are.  The following state machine is modelled from the spec. -/

/-- Modelled from the spec: the per-thread view of the native `_morpheus`
module, missing from the Python sources.  `registered` is whether the
calling thread is bound to a worker slot (unbound threads get neutral
results and no faults); `preempt_seq` / `last_ack_seq` / `crit` /
`pressure` are the SCB fields the modelled operations touch, and
`defensive` is the defensive-mode flag. -/
structure NativeState where
  registered : Bool
  preempt_seq : Nat
  last_ack_seq : Nat
  crit : Nat
  pressure : Nat
  defensive : Bool
deriving Repr, DecidableEq

/-- Modelled from the spec: `checkpoint()` returns true iff the thread is
registered, no critical section is active, and either a hint is pending
(`preempt_seq != last_ack_seq`) or defensive mode is on; it mutates
nothing. -/
def native_checkpoint (s : NativeState) : Bool × NativeState :=
  (s.registered && s.crit == 0 &&
    (s.defensive || s.preempt_seq != s.last_ack_seq), s)

/-- Modelled from the spec: `acknowledge_yield()` copies `preempt_seq` into
`last_ack_seq` and returns whether a yield was outstanding; on an
unregistered thread it is a neutral no-op. -/
def native_acknowledge_yield (s : NativeState) : Bool × NativeState :=
  if s.registered then
    (s.preempt_seq != s.last_ack_seq, { s with last_ack_seq := s.preempt_seq })
  else
    (false, s)

/-- Modelled from the spec: `enter_critical_section()` increments the
re-entrancy counter; neutral no-op when unregistered. -/
def native_enter_critical_section (s : NativeState) : NativeState :=
  if s.registered then { s with crit := s.crit + 1 } else s

/-- Modelled from the spec: `exit_critical_section()` decrements the
re-entrancy counter, clamping at zero on underflow; neutral no-op when
unregistered. -/
def native_exit_critical_section (s : NativeState) : NativeState :=
  if s.registered then { s with crit := s.crit - 1 } else s

/-- Modelled from the spec: `pressure_level()` returns the SCB pressure on
a registered thread and absent otherwise. -/
def native_pressure_level (s : NativeState) : Option Int × NativeState :=
  (if s.registered then some (s.pressure : Int) else none, s)

/-- The native module as a `MorpheusApi` over `NativeState`. -/
def nativeApi : MorpheusApi NativeState where
  checkpoint := native_checkpoint
  yield_requested := fun s =>
    (s.registered && (s.preempt_seq != s.last_ack_seq), s)
  acknowledge_yield := native_acknowledge_yield
  enter_critical_section := native_enter_critical_section
  exit_critical_section := native_exit_critical_section
  is_in_critical_section := fun s => (s.registered && s.crit != 0, s)
  pressure_level := native_pressure_level
  is_defensive_mode := fun s => (s.registered && s.defensive, s)

/-- Modelled from the spec: the native awaitable `yield_now_async()` used
by `async_checkpoint` — it acknowledges then suspends once. -/
def yield_now_async (s : NativeState) : NativeState × List Ev :=
  let (_, s1) := native_acknowledge_yield s
  (s1, [Ev.callAck, Ev.suspend])

/-- `async_checkpoint()` (`python/morpheus/__init__.py`, lines 75-84):
`if checkpoint(): await yield_now_async()` (no return value). -/
def async_checkpoint (s : NativeState) : NativeState × List Ev :=
  let (b, s1) := native_checkpoint s
  if b then
    let (s2, tr) := yield_now_async s1
    (s2, Ev.callCheckpoint :: tr)
  else
    (s1, [Ev.callCheckpoint])

/-! ## Helper lemmas -/

/-- The interval computation uses Python floor division by 100; since the
divisor is positive this agrees with Euclidean division. -/
theorem intervalFor_eq (c : AdaptiveCheckpointer) (p : Int) :
    c.intervalFor p =
      c.max_interval - (c.max_interval - c.min_interval) * p / 100 := by
  unfold AdaptiveCheckpointer.intervalFor
  rw [Int.fdiv_eq_ediv _ (by norm_num)]

end Morpheus

namespace Morpheus

/-- C8: the exported configuration constants have exactly the specified
values: `MAX_WORKERS = 1024`, `DEFAULT_SLICE_NS = 5000000`,
`GRACE_PERIOD_NS = 100000000`, `RINGBUF_SIZE = 262144`. -/
theorem constants_match_spec :
    MAX_WORKERS = 1024 ∧ DEFAULT_SLICE_NS = 5000000 ∧
    GRACE_PERIOD_NS = 100000000 ∧ RINGBUF_SIZE = 262144 :=
  ⟨rfl, rfl, rfl, rfl⟩

/-- C4: `MorpheusScb` is exactly 128 bytes, each named field sits at the
offset of the normative table (`preempt_seq` 0, `budget_remaining_ns` 8,
`kernel_pressure_level` 16, `worker_state` 20, `is_in_critical_section` 64,
`escapable` 68, `last_ack_seq` 72, `runtime_priority` 80,
`last_yield_reason` 84, `escalation_policy` 96), and `verify_offsets()`
succeeds, returning `true` without raising. -/
theorem scb_layout_matches_table :
    scbSizeof = 128 ∧
    scbOffset "preempt_seq" = some 0 ∧
    scbOffset "budget_remaining_ns" = some 8 ∧
    scbOffset "kernel_pressure_level" = some 16 ∧
    scbOffset "worker_state" = some 20 ∧
    scbOffset "is_in_critical_section" = some 64 ∧
    scbOffset "escapable" = some 68 ∧
    scbOffset "last_ack_seq" = some 72 ∧
    scbOffset "runtime_priority" = some 80 ∧
    scbOffset "last_yield_reason" = some 84 ∧
    scbOffset "escalation_policy" = some 96 ∧
    verify_offsets = true := by
  decide

/-- C5: for every pressure `p ∈ [0,100]`, `should_check` computes
`interval = max_interval - (max_interval - min_interval) * p / 100`,
returns `true` and moves the cursor to `i` exactly when
`i - last_check ≥ interval`, and otherwise returns `false` with the cursor
unchanged; with `min_interval = 100`, `max_interval = 10000` the interval
is 10000 at pressure 0, 100 at pressure 100, and 5050 at pressure 50. -/
theorem should_check_semantics (c : AdaptiveCheckpointer) (p i : Int)
    (hp0 : 0 ≤ p) (hp1 : p ≤ 100) :
    c.intervalFor p =
      c.max_interval - (c.max_interval - c.min_interval) * p / 100 ∧
    (i - c.last_check ≥ c.intervalFor p →
      c.should_check (some p) i = (true, { c with last_check := i })) ∧
    (i - c.last_check < c.intervalFor p →
      c.should_check (some p) i = (false, c)) ∧
    AdaptiveCheckpointer.mk_default.intervalFor 0 = 10000 ∧
    AdaptiveCheckpointer.mk_default.intervalFor 100 = 100 ∧
    AdaptiveCheckpointer.mk_default.intervalFor 50 = 5050 := by
  refine ⟨intervalFor_eq c p, ?_, ?_, by decide, by decide, by decide⟩
  · intro h
    simp only [AdaptiveCheckpointer.should_check, orZero, Option.getD_some]
    rw [if_pos h]
  · intro h
    simp only [AdaptiveCheckpointer.should_check, orZero, Option.getD_some]
    rw [if_neg (not_le.mpr h)]

/-- Witness for C5 at `min_interval = 100`, `max_interval = 10000`,
pressure 50, iteration 6000: the interval is 5050 and the checkpoint
fires, moving the cursor to 6000. -/
theorem should_check_semantics_witness :
    AdaptiveCheckpointer.mk_default.should_check (some 50) 6000 =
      (true, { AdaptiveCheckpointer.mk_default with last_check := 6000 }) :=
  (should_check_semantics AdaptiveCheckpointer.mk_default 50 6000
    (by decide) (by decide)).2.1 (by decide)

/-- C6: for pressures `p1 ≤ p2` in `[0,100]` and `0 < min_interval ≤
max_interval`, the pacer interval at `p2` is at most the interval at `p1`,
and both intervals lie in `[min_interval, max_interval]`. -/
theorem interval_monotone_bounded (c : AdaptiveCheckpointer) (p1 p2 : Int)
    (hmin : 0 < c.min_interval) (hle : c.min_interval ≤ c.max_interval)
    (hp0 : 0 ≤ p1) (hp12 : p1 ≤ p2) (hp100 : p2 ≤ 100) :
    c.intervalFor p2 ≤ c.intervalFor p1 ∧
    c.min_interval ≤ c.intervalFor p1 ∧ c.intervalFor p1 ≤ c.max_interval ∧
    c.min_interval ≤ c.intervalFor p2 ∧ c.intervalFor p2 ≤ c.max_interval := by
  have hd : (0 : Int) ≤ c.max_interval - c.min_interval := by linarith
  have key : ∀ p : Int, 0 ≤ p → p ≤ 100 →
      c.min_interval ≤ c.intervalFor p ∧ c.intervalFor p ≤ c.max_interval := by
    intro p h0 h100
    rw [intervalFor_eq]
    constructor
    · have h1 : (c.max_interval - c.min_interval) * p ≤
          (c.max_interval - c.min_interval) * 100 :=
        mul_le_mul_of_nonneg_left h100 hd
      have h2 : (c.max_interval - c.min_interval) * p / 100 ≤
          (c.max_interval - c.min_interval) * 100 / 100 :=
        Int.ediv_le_ediv (by norm_num) h1
      rw [Int.mul_ediv_cancel _ (by norm_num)] at h2
      linarith
    · have h1 : (0 : Int) ≤ (c.max_interval - c.min_interval) * p / 100 :=
        Int.ediv_nonneg (mul_nonneg hd h0) (by norm_num)
      linarith
  have hanti : c.intervalFor p2 ≤ c.intervalFor p1 := by
    rw [intervalFor_eq, intervalFor_eq]
    have h1 : (c.max_interval - c.min_interval) * p1 ≤
        (c.max_interval - c.min_interval) * p2 :=
      mul_le_mul_of_nonneg_left hp12 hd
    have h2 : (c.max_interval - c.min_interval) * p1 / 100 ≤
        (c.max_interval - c.min_interval) * p2 / 100 :=
      Int.ediv_le_ediv (by norm_num) h1
    linarith
  obtain ⟨hl1, hu1⟩ := key p1 hp0 (le_trans hp12 hp100)
  obtain ⟨hl2, hu2⟩ := key p2 (le_trans hp0 hp12) hp100
  exact ⟨hanti, hl1, hu1, hl2, hu2⟩

/-- Witness for C6 at `min_interval = 100`, `max_interval = 10000`,
pressures 0 and 100. -/
theorem interval_monotone_bounded_witness :
    AdaptiveCheckpointer.mk_default.intervalFor 100 ≤
      AdaptiveCheckpointer.mk_default.intervalFor 0 :=
  (interval_monotone_bounded AdaptiveCheckpointer.mk_default 0 100
    (by decide) (by decide) (by decide) (by decide) (by decide)).1

/-- C9: `is_kernel_pressured(threshold)` is `true` iff `pressure_level()`
is present and strictly greater than the threshold (default 50); on a
thread where pressure is absent it is `false` for every threshold. -/
theorem is_kernel_pressured_iff (plevel : Option Int) (t : Int) :
    (is_kernel_pressured plevel t = true ↔
      ∃ l, plevel = some l ∧ t < l) ∧
    is_kernel_pressured none t = false ∧
    is_kernel_pressured plevel = is_kernel_pressured plevel 50 := by
  refine ⟨?_, rfl, rfl⟩
  cases plevel with
  | none => simp [is_kernel_pressured]
  | some l => simp [is_kernel_pressured]

/-- C10: with `pressure_level()` absent, `should_check` behaves exactly as
with pressure 0, whose interval is `max_interval`. -/
theorem should_check_absent_max_interval (c : AdaptiveCheckpointer)
    (i : Int) :
    c.should_check none i = c.should_check (some 0) i ∧
    c.intervalFor (orZero none) = c.max_interval := by
  refine ⟨rfl, ?_⟩
  show c.intervalFor 0 = c.max_interval
  rw [intervalFor_eq]
  simp

/-- C1: the suspending checkpoint returns exactly what `checkpoint()`
returned; when that is `false` the emitted trace is just the `checkpoint`
call — no suspension and no `acknowledge_yield` — and when it is `true`
the trace is `checkpoint`, then `acknowledge_yield`, then the single
suspension, so the acknowledgement precedes the suspension point (and is
thus written even if the task is cancelled there).  The same holds for the
package-level `async_checkpoint` over the modelled native module. -/
theorem checkpoint_ack_precedes_suspend {σ : Type} (api : MorpheusApi σ)
    (s : σ) (t : NativeState) :
    (morpheus_checkpoint api s).1 = (api.checkpoint s).1 ∧
    ((api.checkpoint s).1 = false →
      (morpheus_checkpoint api s).2.2 = [Ev.callCheckpoint]) ∧
    ((api.checkpoint s).1 = true →
      (morpheus_checkpoint api s).2.2 =
        [Ev.callCheckpoint, Ev.callAck, Ev.suspend]) ∧
    ((native_checkpoint t).1 = false →
      (async_checkpoint t).2 = [Ev.callCheckpoint]) ∧
    ((native_checkpoint t).1 = true →
      (async_checkpoint t).2 =
        [Ev.callCheckpoint, Ev.callAck, Ev.suspend]) := by
  refine ⟨?_, ?_, ?_, ?_, ?_⟩
  · by_cases h : (api.checkpoint s).1 <;>
      simp [morpheus_checkpoint, h]
  · intro h
    simp [morpheus_checkpoint, h]
  · intro h
    simp [morpheus_checkpoint, h]
  · intro h
    simp [async_checkpoint, h]
  · intro h
    simp [async_checkpoint, yield_now_async, h]

/-- Witness for C1: over the stub `checkpoint()` is `false` and the trace
has no suspension; over a native state with a pending hint the trace is
`checkpoint`, `acknowledge_yield`, one suspension. -/
theorem checkpoint_ack_precedes_suspend_witness :
    (morpheus_checkpoint stubApi ()).2.2 = [Ev.callCheckpoint] ∧
    (async_checkpoint (⟨true, 1, 0, 0, 0, false⟩ : NativeState)).2 =
      [Ev.callCheckpoint, Ev.callAck, Ev.suspend] :=
  ⟨(checkpoint_ack_precedes_suspend stubApi ()
      (⟨true, 1, 0, 0, 0, false⟩ : NativeState)).2.1 (by decide),
   (checkpoint_ack_precedes_suspend stubApi ()
      (⟨true, 1, 0, 0, 0, false⟩ : NativeState)).2.2.2.2 (by decide)⟩

/-- The state reached by a `morpheus_critical` scope is the exit call
applied to the body's final state; the outcome and trace are as in the
source. -/
theorem morpheus_critical_eq {σ : Type} (api : MorpheusApi σ)
    (body : σ → Outcome × σ × List Ev) (s : σ) :
    morpheus_critical api body s =
      ((body (api.enter_critical_section s)).1,
       api.exit_critical_section (body (api.enter_critical_section s)).2.1,
       Ev.callEnter ::
         ((body (api.enter_critical_section s)).2.2 ++ [Ev.callExit])) :=
  rfl

theorem nativeApi_enter_eq :
    nativeApi.enter_critical_section = native_enter_critical_section := rfl

theorem nativeApi_exit_eq :
    nativeApi.exit_critical_section = native_exit_critical_section := rfl

/-- Nesting critical scopes over the modelled native module preserves the
re-entrancy counter and the registration flag. -/
theorem nestCritical_crit_eq (k : Nat) (t : NativeState) :
    ((nestCritical nativeApi k t).2.1).crit = t.crit ∧
    ((nestCritical nativeApi k t).2.1).registered = t.registered := by
  induction k generalizing t with
  | zero => exact ⟨rfl, rfl⟩
  | succ k ih =>
    simp only [nestCritical, morpheus_critical_eq, nativeApi_enter_eq,
      nativeApi_exit_eq]
    obtain ⟨hc, hr⟩ := ih (native_enter_critical_section t)
    cases ht : t.registered with
    | true =>
      have hc' : ((nestCritical nativeApi k
          (native_enter_critical_section t)).2.1).crit = t.crit + 1 := by
        rw [hc]
        simp [native_enter_critical_section, ht]
      have hr' : ((nestCritical nativeApi k
          (native_enter_critical_section t)).2.1).registered = true := by
        rw [hr]
        simp [native_enter_critical_section, ht]
      constructor
      · simp [native_exit_critical_section, hr', hc']
      · simp [native_exit_critical_section, hr', ht]
    | false =>
      have hc' : ((nestCritical nativeApi k
          (native_enter_critical_section t)).2.1).crit = t.crit := by
        rw [hc]
        simp [native_enter_critical_section, ht]
      have hr' : ((nestCritical nativeApi k
          (native_enter_critical_section t)).2.1).registered = false := by
        rw [hr]
        simp [native_enter_critical_section, ht]
      constructor
      · simp [native_exit_critical_section, hr', hc']
      · simp [native_exit_critical_section, hr', ht]

/-- C2: a `morpheus_critical` scope whose body makes no critical-section
calls of its own calls `enter_critical_section` exactly once and
`exit_critical_section` exactly once, whatever the body's outcome —
normal return, error, or cancellation — and that outcome is propagated;
nesting `k` scopes over the modelled native module returns the
re-entrancy counter to its prior value. -/
theorem critical_scope_balanced {σ : Type} (api : MorpheusApi σ)
    (body : σ → Outcome × σ × List Ev) (s : σ)
    (hE : ((body (api.enter_critical_section s)).2.2).count Ev.callEnter = 0)
    (hX : ((body (api.enter_critical_section s)).2.2).count Ev.callExit = 0) :
    ((morpheus_critical api body s).2.2).count Ev.callEnter = 1 ∧
    ((morpheus_critical api body s).2.2).count Ev.callExit = 1 ∧
    (morpheus_critical api body s).1 =
      (body (api.enter_critical_section s)).1 ∧
    ∀ (k : Nat) (t : NativeState),
      ((nestCritical nativeApi k t).2.1).crit = t.crit := by
  refine ⟨?_, ?_, rfl, fun k t => (nestCritical_crit_eq k t).1⟩
  · rw [morpheus_critical_eq]
    simp [hE]
  · rw [morpheus_critical_eq]
    simp [hX]

/-- Witness for C2: an error-raising body over the stub still produces
exactly one enter call, and three nested scopes over a native state with
counter 5 leave the counter at 5. -/
theorem critical_scope_balanced_witness :
    ((morpheus_critical stubApi (fun u => (Outcome.error, u, []))
        ()).2.2).count Ev.callEnter = 1 ∧
    ((nestCritical nativeApi 3
        (⟨true, 0, 0, 5, 0, false⟩ : NativeState)).2.1).crit = 5 := by
  obtain ⟨h1, h2, h3, h4⟩ :=
    critical_scope_balanced stubApi (fun u => (Outcome.error, u, [])) ()
      (by decide) (by decide)
  exact ⟨h1, h4 3 ⟨true, 0, 0, 5, 0, false⟩⟩

/-- C3: with the native module unavailable, every stub operation returns
its neutral value without touching any state and without raising —
`checkpoint`, `yield_requested`, `acknowledge_yield`,
`is_in_critical_section`, `is_defensive_mode` return `false`,
`pressure_level` returns absent, `enter`/`exit_critical_section` do
nothing — hence the critical scope is a no-op on the runtime state and the
suspending checkpoint returns `false` without suspending. -/
theorem stub_degradation_neutral :
    (∀ s, stubApi.checkpoint s = (false, s)) ∧
    (∀ s, stubApi.yield_requested s = (false, s)) ∧
    (∀ s, stubApi.acknowledge_yield s = (false, s)) ∧
    (∀ s, stubApi.pressure_level s = (none, s)) ∧
    (∀ s, stubApi.is_in_critical_section s = (false, s)) ∧
    (∀ s, stubApi.is_defensive_mode s = (false, s)) ∧
    (∀ s, stubApi.enter_critical_section s = s) ∧
    (∀ s, stubApi.exit_critical_section s = s) ∧
    (∀ (body : Unit → Outcome × Unit × List Ev) (s : Unit),
      morpheus_critical stubApi body s =
        ((body s).1, (body s).2.1,
          Ev.callEnter :: ((body s).2.2 ++ [Ev.callExit]))) ∧
    (∀ s, morpheus_checkpoint stubApi s = (false, s, [Ev.callCheckpoint])) :=
  ⟨fun _ => rfl, fun _ => rfl, fun _ => rfl, fun _ => rfl, fun _ => rfl,
   fun _ => rfl, fun _ => rfl, fun _ => rfl, fun _ _ => rfl, fun _ => rfl⟩

/-- C7: `force_yield()` emits, for every backend and every state, the
trace `acknowledge_yield` followed by exactly one suspension, and its
resulting state is the state after the acknowledgement. -/
theorem force_yield_always_acks_and_suspends {σ : Type}
    (api : MorpheusApi σ) (s : σ) :
    (force_yield api s).2 = [Ev.callAck, Ev.suspend] ∧
    (force_yield api s).1 = (api.acknowledge_yield s).2 :=
  ⟨rfl, rfl⟩

end Morpheus
